import Mathlib

/-
  Verification development for the Mute utility (src/mute.cpp).

  The program is embedded shallowly: every platform call that can fail is
  modelled by a Boolean success flag recorded in the environment, and the
  observable behaviour of a run is a trace of output events (which C stream a
  write goes to, and which message) together with the mute-flag operations
  performed on each device.  Each Lean definition mirrors one function of the
  source file and keeps its name.
-/

/-- Run configuration, mirroring `struct Options` (mute.cpp lines 60-63). -/
structure Options where
  silent : Bool
  unmute : Bool
deriving Repr, DecidableEq

/-- The two C output streams used by the program. -/
inductive StreamId where
  | stdout
  | stderr
deriving Repr, DecidableEq

/-- Abstract message contents.  Each constructor stands for one distinct
format string appearing in mute.cpp; arguments carry the data interpolated
into the format. -/
inductive Msg where
  /-- the two-character string written by `fputs("! ", ...)` in PrintError -/
  | errMark
  /-- a bare newline written by `fputs("\n", ...)` -/
  | newline
  | failedCoInit
  | failedCreateEnumerator
  | failedEnumEndpoints
  | failedGetCount
  | failedGetItem (i : Nat)
  | failedOpenPropStore (i : Nat)
  | failedGetName (i : Nat)
  | foundEndpoint (name : String)
  | failedSessionManager (name : String)
  | failedEndpointVolume (name : String)
  | failedGetMute (name : String)
  | alreadyUnmuted (name : String)
  | alreadyMuted (name : String)
  | failedSetMute (name : String)
  | nowMuted (name : String) (unmute : Bool)
  | usage
deriving Repr, DecidableEq

/-- One write to one of the two streams. -/
structure OutEvent where
  stream : StreamId
  msg : Msg
deriving Repr, DecidableEq

/-- Mute-flag operations performed on a device's endpoint-volume control. -/
inductive MuteOp where
  | getMute
  | setMute (target : Bool)
deriving Repr, DecidableEq

/-- Embeds `PrintError` (mute.cpp lines 84-95).  When not silent it writes
the two-character marker to STDOUT (`fputs("! ", stdout)`, line 91), then the
formatted message and a newline to stderr. -/
def PrintError (opts : Options) (m : Msg) : List OutEvent :=
  if opts.silent then []
  else [⟨.stdout, .errMark⟩, ⟨.stderr, m⟩, ⟨.stderr, .newline⟩]

/-- Embeds `Print` (mute.cpp lines 97-107): formatted message and newline,
both to stdout, suppressed when silent. -/
def Print (opts : Options) (m : Msg) : List OutEvent :=
  if opts.silent then []
  else [⟨.stdout, m⟩, ⟨.stdout, .newline⟩]

/-- One enumerated endpoint together with the outcome of every fallible
platform call made for it during the run.  `isMuted` is the device's current
mute flag as `GetMute` would report it. -/
structure Device where
  /-- `audioEndpoints->Item(i, &device)` succeeds -/
  itemOk : Bool
  /-- `device->OpenPropertyStore` succeeds -/
  propStoreOk : Bool
  /-- `propStore->GetValue(PKEY_Device_FriendlyName, ...)` succeeds -/
  nameOk : Bool
  /-- the friendly name returned when `nameOk` -/
  name : String
  /-- `device->Activate(IAudioSessionManager2, ...)` succeeds -/
  sessionManagerOk : Bool
  /-- `sessionManager2->GetAudioSessionControl` succeeds -/
  sessionCtrlOk : Bool
  /-- `device->Activate(IAudioEndpointVolume, ...)` succeeds -/
  endpointVolumeOk : Bool
  /-- `ev->GetMute(&isMuted)` succeeds -/
  getMuteOk : Bool
  /-- current mute flag of the device -/
  isMuted : Bool
  /-- `ev->SetMute(...)` succeeds -/
  setMuteOk : Bool
deriving Repr, DecidableEq

/-- Result of processing one device: the mute-flag operations performed, the
output produced, and the device's mute flag after the iteration. -/
structure DevResult where
  ops : List MuteOp
  out : List OutEvent
  muted : Bool
deriving Repr, DecidableEq

/-- Embeds `MuteEndpoint` (mute.cpp lines 113-144).  A `GetMute` call is
always performed; if it fails the function returns after an error message.
If the flag already equals the target `!opts.unmute` an informational message
is printed and nothing is written; otherwise `SetMute(!opts.unmute)` is
called and the confirmation or error is printed. -/
def MuteEndpoint (opts : Options) (d : Device) : DevResult :=
  if d.getMuteOk = false then
    ⟨[.getMute], PrintError opts (.failedGetMute d.name), d.isMuted⟩
  else if opts.unmute && !d.isMuted then
    ⟨[.getMute], Print opts (.alreadyUnmuted d.name), d.isMuted⟩
  else if !opts.unmute && d.isMuted then
    ⟨[.getMute], Print opts (.alreadyMuted d.name), d.isMuted⟩
  else if d.setMuteOk = false then
    ⟨[.getMute, .setMute (!opts.unmute)],
      PrintError opts (.failedSetMute d.name), d.isMuted⟩
  else
    ⟨[.getMute, .setMute (!opts.unmute)],
      Print opts (.nowMuted d.name opts.unmute), !opts.unmute⟩

/-- Embeds the body of the `for` loop in `Mute` (mute.cpp lines 175-235):
item retrieval, property-store open, friendly-name lookup, session-manager
activation, session-control retrieval and endpoint-volume activation, each
skipping the device with a warning on failure; then `MuteEndpoint` followed
by the unconditional `fputs("\n", stdout)` of line 234. -/
def ProcessDevice (opts : Options) (i : Nat) (d : Device) : DevResult :=
  if d.itemOk = false then
    ⟨[], PrintError opts (.failedGetItem i), d.isMuted⟩
  else if d.propStoreOk = false then
    ⟨[], PrintError opts (.failedOpenPropStore i), d.isMuted⟩
  else if d.nameOk = false then
    ⟨[], PrintError opts (.failedGetName i), d.isMuted⟩
  else
    let header := Print opts (.foundEndpoint d.name)
    if d.sessionManagerOk = false then
      ⟨[], header ++ PrintError opts (.failedSessionManager d.name), d.isMuted⟩
    else if d.sessionCtrlOk = false then
      -- the source reuses the session-manager wording here (lines 216-218)
      ⟨[], header ++ PrintError opts (.failedSessionManager d.name), d.isMuted⟩
    else if d.endpointVolumeOk = false then
      ⟨[], header ++ PrintError opts (.failedEndpointVolume d.name), d.isMuted⟩
    else
      let r := MuteEndpoint opts d
      ⟨r.ops, header ++ r.out ++ [⟨.stdout, .newline⟩], r.muted⟩

/-- Outcome of the fallible platform calls that precede the device loop. -/
structure AudioEnv where
  /-- `deviceEnumerator.CreateInstance(MMDeviceEnumerator, ...)` succeeds -/
  createEnumOk : Bool
  /-- `EnumAudioEndpoints(eRender, DEVICE_STATE_ACTIVE, ...)` succeeds -/
  enumEndpointsOk : Bool
  /-- `audioEndpoints->GetCount` succeeds -/
  getCountOk : Bool
  /-- the enumerated active render endpoints, in enumeration order -/
  devices : List Device
deriving Repr, DecidableEq

/-- The device loop of `Mute` (mute.cpp line 175), indexed from `i`. -/
def MuteLoop (opts : Options) : Nat → List Device → List DevResult
  | _, [] => []
  | i, d :: ds => ProcessDevice opts i d :: MuteLoop opts (i + 1) ds

/-- Overall result of `Mute`: the Boolean it returns, the full output trace,
the per-device mute-operation lists, and the devices with updated flags. -/
structure RunResult where
  ok : Bool
  out : List OutEvent
  ops : List (List MuteOp)
  devices : List Device
deriving Repr, DecidableEq

/-- Embeds `Mute` (mute.cpp lines 146-238): enumerator creation, endpoint
enumeration and count query each abort with `false` on failure; otherwise
every device is processed in order and `true` is returned. -/
def Mute (opts : Options) (env : AudioEnv) : RunResult :=
  if env.createEnumOk = false then
    ⟨false, PrintError opts .failedCreateEnumerator, [], env.devices⟩
  else if env.enumEndpointsOk = false then
    ⟨false, PrintError opts .failedEnumEndpoints, [], env.devices⟩
  else if env.getCountOk = false then
    ⟨false, PrintError opts .failedGetCount, [], env.devices⟩
  else
    let rs := MuteLoop opts 0 env.devices
    ⟨true, (rs.map DevResult.out).flatten, rs.map DevResult.ops,
      List.zipWith (fun d r => { d with isMuted := r.muted }) env.devices rs⟩

/-- ASCII case-insensitive string equality, embedding `_strcmpi`. -/
def strcmpiEq (a b : String) : Bool :=
  a.data.map Char.toLower == b.data.map Char.toLower

/-- Exact string equality, embedding `strcmp`. -/
def strEq (a b : String) : Bool :=
  a.data == b.data

/-- Embeds `DisplayUsage` (mute.cpp lines 255-261): true exactly when the
sole argument is `-help` (case-insensitively, `_strcmpi`) or exactly `-?`
(`strcmp`).  `args` is `argv[1..]`. -/
def DisplayUsage (args : List String) : Bool :=
  match args with
  | [a] => strcmpiEq a "-help" || strEq a "-?"
  | _ => false

/-- Embeds `ParseCommandLine` (mute.cpp lines 263-275): scans the arguments
left to right, setting `silent` or `unmute`; stops at the first unrecognized
argument and returns `false` together with the options set so far (the C
code mutates the globals in place before failing). -/
def ParseCommandLine : List String → Options → Bool × Options
  | [], opts => (true, opts)
  | a :: rest, opts =>
    if strcmpiEq a "-silent" then
      ParseCommandLine rest { opts with silent := true }
    else if strcmpiEq a "-unmute" then
      ParseCommandLine rest { opts with unmute := true }
    else
      (false, opts)

/-- Observable result of a whole process run. -/
structure MainResult where
  exitCode : Nat
  out : List OutEvent
  ops : List (List MuteOp)
  /-- whether `Mute()` (the walker) was invoked at all -/
  ranWalker : Bool
deriving Repr, DecidableEq

/-- Embeds `main` together with `Init` and `PrintUsage` (mute.cpp lines
244-253, 278-291, 298-310).  `initOk` is the outcome of `CoInitializeEx`.
`rc` starts at `EXIT_FAILURE` (1) and becomes `EXIT_SUCCESS` (0) only when
`Mute()` returns true; the usage branch never touches it.  At `Init` time the
global options are still zeroed, so its error message is never silenced.
`PrintUsage` is a bare `printf`, not routed through `Print`. -/
def mainRun (initOk : Bool) (args : List String) (env : AudioEnv) : MainResult :=
  if initOk = false then
    ⟨1, PrintError ⟨false, false⟩ .failedCoInit, [], false⟩
  else if DisplayUsage args then
    ⟨1, [⟨.stdout, .usage⟩], [], false⟩
  else
    match ParseCommandLine args ⟨false, false⟩ with
    | (false, _) => ⟨1, [⟨.stdout, .usage⟩], [], false⟩
    | (true, opts) =>
      let r := Mute opts env
      ⟨if r.ok then 0 else 1, r.out, r.ops, true⟩

/-- Whether a mute operation is a write (`SetMute`). -/
def MuteOp.isSet : MuteOp → Bool
  | .setMute _ => true
  | .getMute => false

/-- Whether a mute operation is a read (`GetMute`). -/
def MuteOp.isGet : MuteOp → Bool
  | .setMute _ => false
  | .getMute => true

/-- Number of `SetMute` calls in an operation list. -/
def writeCount (ops : List MuteOp) : Nat :=
  (ops.filter MuteOp.isSet).length

/-- Number of `GetMute` calls in an operation list. -/
def readCount (ops : List MuteOp) : Nat :=
  (ops.filter MuteOp.isGet).length

/-- Whether `ParseCommandLine` recognizes a single argument. -/
def recognizedArg (a : String) : Bool :=
  strcmpiEq a "-silent" || strcmpiEq a "-unmute"

/-- Per-device processing following the spec's step list only — name
resolution, mute-control acquisition, read, conditional write — with no
session-manager or session-control step.  Comparing `ProcessDevice` against
this definition shows the session acquisitions contribute nothing to the
mute decision or write when they succeed, and are an extra skip reason when
they fail. -/
def ProcessDeviceNoSession (opts : Options) (i : Nat) (d : Device) : DevResult :=
  if d.itemOk = false then
    ⟨[], PrintError opts (.failedGetItem i), d.isMuted⟩
  else if d.propStoreOk = false then
    ⟨[], PrintError opts (.failedOpenPropStore i), d.isMuted⟩
  else if d.nameOk = false then
    ⟨[], PrintError opts (.failedGetName i), d.isMuted⟩
  else
    let header := Print opts (.foundEndpoint d.name)
    if d.endpointVolumeOk = false then
      ⟨[], header ++ PrintError opts (.failedEndpointVolume d.name), d.isMuted⟩
    else
      let r := MuteEndpoint opts d
      ⟨r.ops, header ++ r.out ++ [⟨.stdout, .newline⟩], r.muted⟩

/-- Sample healthy device, currently unmuted. -/
def devA : Device :=
  ⟨true, true, true, "Speakers", true, true, true, true, false, true⟩

/-- Sample healthy device, currently muted. -/
def devB : Device :=
  ⟨true, true, true, "Headset", true, true, true, true, true, true⟩

/-- Sample device failing at item retrieval. -/
def devBad : Device :=
  ⟨false, true, true, "Broken", true, true, true, true, false, true⟩

/-- Sample device whose session-manager activation fails. -/
def devNoSession : Device :=
  ⟨true, true, true, "Monitor", false, true, true, true, false, true⟩

/-- Sample environment: enumeration succeeds, one broken and one healthy
device. -/
def envAB : AudioEnv := ⟨true, true, true, [devBad, devA]⟩

/-- Sample environment with zero active render endpoints. -/
def envEmpty : AudioEnv := ⟨true, true, true, []⟩

/- ===========================================================================
   Helper lemmas
-/

/-- The device loop produces one result per device. -/
theorem MuteLoop_length (opts : Options) (ds : List Device) :
    ∀ i, (MuteLoop opts i ds).length = ds.length := by
  induction ds with
  | nil => intro i; rfl
  | cons d ds ih => intro i; simp [MuteLoop, ih]

/-- The k-th loop result is the processing of the k-th device alone. -/
theorem MuteLoop_getElem (opts : Options) (ds : List Device) :
    ∀ i k, (MuteLoop opts i ds)[k]? =
      ds[k]?.map (fun d => ProcessDevice opts (i + k) d) := by
  induction ds with
  | nil => intro i k; simp [MuteLoop]
  | cons d ds ih =>
    intro i k
    cases k with
    | zero => simp [MuteLoop]
    | succ k =>
      have hik : i + 1 + k = i + (k + 1) := by omega
      simp [MuteLoop, ih (i + 1) k, hik]

/-- Unfolding of `Mute` when the three fatal checks pass. -/
theorem Mute_success (opts : Options) (env : AudioEnv)
    (h1 : env.createEnumOk = true) (h2 : env.enumEndpointsOk = true)
    (h3 : env.getCountOk = true) :
    Mute opts env =
      ⟨true, ((MuteLoop opts 0 env.devices).map DevResult.out).flatten,
        (MuteLoop opts 0 env.devices).map DevResult.ops,
        List.zipWith (fun d r => { d with isMuted := r.muted }) env.devices
          (MuteLoop opts 0 env.devices)⟩ := by
  simp [Mute, h1, h2, h3]

/-- When one of the three pre-loop calls fails, `Mute` returns false, no
device is processed, and (unless silenced) an error is emitted. -/
theorem Mute_fatal (opts : Options) (env : AudioEnv)
    (h : env.createEnumOk = false ∨ env.enumEndpointsOk = false ∨
         env.getCountOk = false) :
    (Mute opts env).ok = false ∧ (Mute opts env).ops = [] ∧
    (opts.silent = false → (Mute opts env).out ≠ []) := by
  cases hc : env.createEnumOk <;> cases he : env.enumEndpointsOk <;>
    cases hg : env.getCountOk <;>
      simp_all [Mute, PrintError]

/-- An unrecognized argument anywhere makes `ParseCommandLine` fail. -/
theorem ParseCommandLine_unrecognized (args : List String) :
    ∀ opts : Options, (∃ a ∈ args, recognizedArg a = false) →
      (ParseCommandLine args opts).1 = false := by
  induction args with
  | nil => intro opts h; simp at h
  | cons a rest ih =>
    intro opts h
    rcases h with ⟨b, hb, hrec⟩
    rcases List.mem_cons.mp hb with rfl | hbrest
    · have hsp : strcmpiEq b "-silent" = false ∧ strcmpiEq b "-unmute" = false := by
        simpa [recognizedArg] using hrec
      simp [ParseCommandLine, hsp.1, hsp.2]
    · cases hs : strcmpiEq a "-silent" with
      | true =>
        simp only [ParseCommandLine, hs, if_pos]
        exact ih _ ⟨b, hbrest, hrec⟩
      | false =>
        cases hu : strcmpiEq a "-unmute" with
        | true =>
          simp only [ParseCommandLine, hs, hu]
          simp only [Bool.false_eq_true, if_false, if_pos]
          exact ih _ ⟨b, hbrest, hrec⟩
        | false =>
          simp [ParseCommandLine, hs, hu]

/-- Any run whose arguments trigger the usage path yields exactly the usage
text, exit code 1, and no walker activity. -/
theorem mainRun_usagePath (args : List String) (env : AudioEnv)
    (h : args = ["-help"] ∨ args = ["-?"] ∨
         ∃ a ∈ args, recognizedArg a = false) :
    mainRun true args env = ⟨1, [⟨.stdout, .usage⟩], [], false⟩ := by
  rcases h with rfl | rfl | hex
  · have hdu : DisplayUsage ["-help"] = true := by decide
    simp [mainRun, hdu]
  · have hdu : DisplayUsage ["-?"] = true := by decide
    simp [mainRun, hdu]
  · cases hdu : DisplayUsage args with
    | true => simp [mainRun, hdu]
    | false =>
      have hp := ParseCommandLine_unrecognized args ⟨false, false⟩ hex
      rcases hpc : ParseCommandLine args ⟨false, false⟩ with ⟨b, o⟩
      rw [hpc] at hp
      simp only at hp
      subst hp
      simp [mainRun, hdu, hpc]

/-- `MuteEndpoint` performs exactly one read, followed by at most one
write. -/
theorem MuteEndpoint_ops (opts : Options) (d : Device) :
    (MuteEndpoint opts d).ops = [MuteOp.getMute] ∨
    (MuteEndpoint opts d).ops =
      [MuteOp.getMute, MuteOp.setMute (!opts.unmute)] := by
  cases hg : d.getMuteOk <;> cases hu : opts.unmute <;>
    cases hm : d.isMuted <;> cases hs : d.setMuteOk <;>
      simp [MuteEndpoint, hg, hu, hm, hs]

/-- The operations of one loop iteration: none (device skipped before the
mute stage) or those of `MuteEndpoint`. -/
theorem ProcessDevice_ops_cases (opts : Options) (i : Nat) (d : Device) :
    (ProcessDevice opts i d).ops = [] ∨
    (ProcessDevice opts i d).ops = [MuteOp.getMute] ∨
    (ProcessDevice opts i d).ops =
      [MuteOp.getMute, MuteOp.setMute (!opts.unmute)] := by
  have hme := MuteEndpoint_ops opts d
  cases h1 : d.itemOk <;> cases h2 : d.propStoreOk <;> cases h3 : d.nameOk <;>
    cases h4 : d.sessionManagerOk <;> cases h5 : d.sessionCtrlOk <;>
      cases h6 : d.endpointVolumeOk <;>
        rcases hme with h | h <;>
          simp [ProcessDevice, h1, h2, h3, h4, h5, h6, h]

/- ===========================================================================
   Claim theorems
-/

/-- Claim C1: for every enumerated device whose acquisition steps succeed,
if the current mute flag already equals the target `!config.unmute` the
program emits the already-muted / already-unmuted message and performs no
`SetMute`; otherwise it writes the target flag; and processing the device
again in the state the first (successful) run left it performs zero writes,
so a second run with the same flags and unchanged device state is
write-free. -/
theorem mute_idempotent (opts : Options) (i : Nat) (d : Device)
    (h1 : d.itemOk = true) (h2 : d.propStoreOk = true) (h3 : d.nameOk = true)
    (h4 : d.sessionManagerOk = true) (h5 : d.sessionCtrlOk = true)
    (h6 : d.endpointVolumeOk = true) (h7 : d.getMuteOk = true)
    (h8 : d.setMuteOk = true) :
    (d.isMuted = !opts.unmute →
      writeCount (ProcessDevice opts i d).ops = 0 ∧
      (opts.silent = false →
        (OutEvent.mk .stdout
          (if opts.unmute then Msg.alreadyUnmuted d.name
           else Msg.alreadyMuted d.name)) ∈ (ProcessDevice opts i d).out)) ∧
    (¬ d.isMuted = !opts.unmute →
      MuteOp.setMute (!opts.unmute) ∈ (ProcessDevice opts i d).ops) ∧
    writeCount (ProcessDevice opts i
      { d with isMuted := (ProcessDevice opts i d).muted }).ops = 0 := by
  cases hU : opts.unmute <;> cases hM : d.isMuted <;> cases hS : opts.silent <;>
    simp [ProcessDevice, MuteEndpoint, Print, PrintError, writeCount,
      MuteOp.isSet, List.filter, h1, h2, h3, h4, h5, h6, h7, h8, hU, hM, hS]

/-- Claim C2: when enumerator creation, endpoint enumeration and the count
query all succeed, `Mute` returns true and the run exits 0, every device is
processed (one operation list per device), and the k-th device's operations
are those of processing the k-th device alone — failures of other devices
cannot affect it. -/
theorem per_device_isolation (args : List String) (env : AudioEnv)
    (opts : Options)
    (hu : DisplayUsage args = false)
    (hp : ParseCommandLine args ⟨false, false⟩ = (true, opts))
    (h1 : env.createEnumOk = true) (h2 : env.enumEndpointsOk = true)
    (h3 : env.getCountOk = true) :
    (Mute opts env).ok = true ∧
    (mainRun true args env).exitCode = 0 ∧
    (Mute opts env).ops.length = env.devices.length ∧
    (∀ k, (Mute opts env).ops[k]? =
      env.devices[k]?.map (fun d => (ProcessDevice opts k d).ops)) := by
  have hm := Mute_success opts env h1 h2 h3
  refine ⟨by rw [hm], ?_, ?_, ?_⟩
  · simp [mainRun, hu, hp, hm]
  · rw [hm]
    simp [MuteLoop_length]
  · intro k
    rw [hm]
    simp only [List.getElem?_map, MuteLoop_getElem, Nat.zero_add]
    cases env.devices[k]? <;> simp

/-- Claim C3: if COM initialization, enumerator creation, endpoint
enumeration or the endpoint-count query fails, the run exits with code 1,
no device mute flag is read or written, and (unless silenced) a fatal error
is reported. -/
theorem fatal_aborts (initOk : Bool) (args : List String) (env : AudioEnv)
    (h : initOk = false ∨
      (initOk = true ∧ DisplayUsage args = false ∧
       (ParseCommandLine args ⟨false, false⟩).1 = true ∧
       (env.createEnumOk = false ∨ env.enumEndpointsOk = false ∨
        env.getCountOk = false))) :
    (mainRun initOk args env).exitCode = 1 ∧
    (mainRun initOk args env).ops = [] ∧
    ((ParseCommandLine args ⟨false, false⟩).2.silent = false →
      (mainRun initOk args env).out ≠ []) := by
  rcases h with rfl | ⟨hinit, hu, hp1, hf⟩
  · simp [mainRun, PrintError]
  · subst hinit
    rcases hpc : ParseCommandLine args ⟨false, false⟩ with ⟨b, o⟩
    rw [hpc] at hp1
    simp only at hp1
    subst hp1
    have hm := Mute_fatal o env hf
    refine ⟨?_, ?_, ?_⟩ <;> simp only [mainRun, hu, hpc]
    · simp [hm.1]
    · simp [hm.2.1]
    · simpa using hm.2.2

/-- Claim C4 fails on the code: with `-silent` and one device that reaches
`MuteEndpoint`, the run still writes the paragraph-separating newline of
mute.cpp line 234 to stdout, because that `fputs` is not routed through the
silent check — contradicting both the claim and the program's own usage
text for `-silent`. -/
theorem silent_run_still_writes :
    (mainRun true ["-silent"] ⟨true, true, true, [devA]⟩).out =
      [⟨.stdout, .newline⟩] := by
  rfl

/-- Claim C5 fails on the code: a failure diagnostic is not a single line
on stderr, because `PrintError` writes its two-character marker to stdout
(`fputs("! ", stdout)`, mute.cpp line 91) and only the message body and
newline to stderr.  Shown here on a full run whose endpoint enumeration
fails. -/
theorem error_line_splits_streams :
    (mainRun true [] ⟨true, false, true, []⟩).out =
      [⟨.stdout, .errMark⟩, ⟨.stderr, .failedEnumEndpoints⟩,
       ⟨.stderr, .newline⟩] := by
  rfl

/-- Claim C6: when `-help` or `-?` is the sole argument, or any
unrecognized argument appears anywhere, the run prints exactly the usage
text, the walker is never invoked, and no mute flag is read or written. -/
theorem usage_no_walker (args : List String) (env : AudioEnv)
    (h : args = ["-help"] ∨ args = ["-?"] ∨
         ∃ a ∈ args, recognizedArg a = false) :
    (mainRun true args env).out = [⟨.stdout, .usage⟩] ∧
    (mainRun true args env).ranWalker = false ∧
    (mainRun true args env).ops = [] := by
  rw [mainRun_usagePath args env h]
  exact ⟨rfl, rfl, rfl⟩

/-- Claim C7 is false on the code: displaying the usage text does not exit
with code 0.  `rc` is initialized to `EXIT_FAILURE` and the usage branch of
`main` never changes it, so a `-help` run exits 1. -/
theorem help_run_exit_nonzero :
    ¬ (mainRun true ["-help"] envEmpty).exitCode = 0 := by
  decide

/-- Claim C7 amended: when the usage text is displayed (via `-help`, `-?`
or an unrecognized argument), the process exits with code 1
(`EXIT_FAILURE`), since the usage branch leaves the initial failure code in
place. -/
theorem usage_exit_code_one (args : List String) (env : AudioEnv)
    (h : args = ["-help"] ∨ args = ["-?"] ∨
         ∃ a ∈ args, recognizedArg a = false) :
    (mainRun true args env).exitCode = 1 := by
  rw [mainRun_usagePath args env h]

/-- Claim C8: with zero active render endpoints and successful enumeration,
the loop performs zero iterations — no output at all, no mute operations —
and the run exits 0. -/
theorem empty_set_success (args : List String) (env : AudioEnv)
    (opts : Options)
    (hu : DisplayUsage args = false)
    (hp : ParseCommandLine args ⟨false, false⟩ = (true, opts))
    (h1 : env.createEnumOk = true) (h2 : env.enumEndpointsOk = true)
    (h3 : env.getCountOk = true) (hdev : env.devices = []) :
    (mainRun true args env).exitCode = 0 ∧
    (mainRun true args env).ops = [] ∧
    (mainRun true args env).out = [] := by
  have hm := Mute_success opts env h1 h2 h3
  rw [hdev] at hm
  refine ⟨?_, ?_, ?_⟩ <;> simp [mainRun, hu, hp, hm, MuteLoop]

/-- Claim C9: in every run with successful enumeration, each enumerated
device's operation list is exactly the result of processing that device
alone — nothing is carried over from other iterations — and it contains at
most one `GetMute` and at most one `SetMute`. -/
theorem one_get_one_set (opts : Options) (env : AudioEnv) (k : Nat)
    (d : Device)
    (h1 : env.createEnumOk = true) (h2 : env.enumEndpointsOk = true)
    (h3 : env.getCountOk = true) (hd : env.devices[k]? = some d) :
    (Mute opts env).ops[k]? = some (ProcessDevice opts k d).ops ∧
    readCount (ProcessDevice opts k d).ops ≤ 1 ∧
    writeCount (ProcessDevice opts k d).ops ≤ 1 := by
  have hm := Mute_success opts env h1 h2 h3
  refine ⟨?_, ?_, ?_⟩
  · rw [hm]
    simp [List.getElem?_map, MuteLoop_getElem, Nat.zero_add, hd]
  · rcases ProcessDevice_ops_cases opts k d with h | h | h <;>
      simp [h, readCount, MuteOp.isGet, List.filter]
  · rcases ProcessDevice_ops_cases opts k d with h | h | h <;>
      simp [h, writeCount, MuteOp.isSet, List.filter]

/-- Claim C10: after the name step the code activates a session manager and
obtains a session control before acquiring the endpoint-volume handle;
failure of either skips the device with a warning (an extra skip reason
beyond the spec's step list), and when both succeed the processing is
identical to the session-free per-device pipeline, so neither object
influences the mute decision or write. -/
theorem session_steps_gate_only (opts : Options) (i : Nat) (d : Device)
    (h1 : d.itemOk = true) (h2 : d.propStoreOk = true)
    (h3 : d.nameOk = true) :
    ((d.sessionManagerOk = false ∨ d.sessionCtrlOk = false) →
      (ProcessDevice opts i d).ops = [] ∧
      (ProcessDevice opts i d).muted = d.isMuted ∧
      (opts.silent = false →
        (OutEvent.mk .stderr (Msg.failedSessionManager d.name)) ∈
          (ProcessDevice opts i d).out)) ∧
    (d.sessionManagerOk = true → d.sessionCtrlOk = true →
      ProcessDevice opts i d = ProcessDeviceNoSession opts i d) := by
  cases h4 : d.sessionManagerOk <;> cases h5 : d.sessionCtrlOk <;>
    cases hs : opts.silent <;>
      simp [ProcessDevice, ProcessDeviceNoSession, Print, PrintError,
        h1, h2, h3, h4, h5, hs]

/- ===========================================================================
   Witnesses
-/

/-- Witness: after one default-flag pass over the healthy unmuted device,
processing it again performs zero writes. -/
theorem mute_idempotent_witness :
    writeCount (ProcessDevice ⟨false, false⟩ 0
      { devA with
        isMuted := (ProcessDevice ⟨false, false⟩ 0 devA).muted }).ops = 0 :=
  (mute_idempotent ⟨false, false⟩ 0 devA rfl rfl rfl rfl rfl rfl rfl rfl).2.2

/-- Witness: with one broken and one healthy device, the run exits 0 and
both devices have an operation record. -/
theorem per_device_isolation_witness :
    (mainRun true [] envAB).exitCode = 0 ∧
    (Mute ⟨false, false⟩ envAB).ops.length = 2 :=
  ⟨(per_device_isolation [] envAB ⟨false, false⟩ rfl rfl rfl rfl rfl).2.1,
   by
     rw [(per_device_isolation [] envAB ⟨false, false⟩ rfl rfl rfl
       rfl rfl).2.2.1]
     rfl⟩

/-- Witness: an enumeration failure exits 1 with no mute operations and a
reported error. -/
theorem fatal_aborts_witness :
    (mainRun true [] ⟨true, false, true, []⟩).exitCode = 1 ∧
    (mainRun true [] ⟨true, false, true, []⟩).ops = [] ∧
    (mainRun true [] ⟨true, false, true, []⟩).out ≠ [] :=
  ⟨(fatal_aborts true [] ⟨true, false, true, []⟩
      (Or.inr ⟨rfl, rfl, rfl, Or.inr (Or.inl rfl)⟩)).1,
   (fatal_aborts true [] ⟨true, false, true, []⟩
      (Or.inr ⟨rfl, rfl, rfl, Or.inr (Or.inl rfl)⟩)).2.1,
   (fatal_aborts true [] ⟨true, false, true, []⟩
      (Or.inr ⟨rfl, rfl, rfl, Or.inr (Or.inl rfl)⟩)).2.2 rfl⟩

/-- Witness: a sole `-help` argument prints the usage text and never runs
the walker. -/
theorem usage_no_walker_witness :
    (mainRun true ["-help"] envAB).out = [⟨.stdout, .usage⟩] ∧
    (mainRun true ["-help"] envAB).ranWalker = false ∧
    (mainRun true ["-help"] envAB).ops = [] :=
  usage_no_walker ["-help"] envAB (Or.inl rfl)

/-- Witness: an unrecognized argument exits with code 1. -/
theorem usage_exit_code_one_witness :
    (mainRun true ["-unknown"] envAB).exitCode = 1 :=
  usage_exit_code_one ["-unknown"] envAB
    (Or.inr (Or.inr ⟨"-unknown", by decide, by decide⟩))

/-- Witness: the empty endpoint set exits 0 with no output at all. -/
theorem empty_set_success_witness :
    (mainRun true [] envEmpty).exitCode = 0 ∧
    (mainRun true [] envEmpty).ops = [] ∧
    (mainRun true [] envEmpty).out = [] :=
  empty_set_success [] envEmpty ⟨false, false⟩ rfl rfl rfl rfl rfl rfl

/-- Witness: the second device of the two-device environment gets exactly
its own operations, with at most one read and one write. -/
theorem one_get_one_set_witness :
    (Mute ⟨false, false⟩ envAB).ops[1]? =
      some (ProcessDevice ⟨false, false⟩ 1 devA).ops ∧
    readCount (ProcessDevice ⟨false, false⟩ 1 devA).ops ≤ 1 ∧
    writeCount (ProcessDevice ⟨false, false⟩ 1 devA).ops ≤ 1 :=
  one_get_one_set ⟨false, false⟩ envAB 1 devA rfl rfl rfl rfl

/-- Witness: a failed session-manager activation skips the device with a
warning before any mute operation. -/
theorem session_steps_gate_only_witness :
    (ProcessDevice ⟨false, false⟩ 0 devNoSession).ops = [] ∧
    (OutEvent.mk .stderr (Msg.failedSessionManager devNoSession.name)) ∈
      (ProcessDevice ⟨false, false⟩ 0 devNoSession).out :=
  ⟨((session_steps_gate_only ⟨false, false⟩ 0 devNoSession rfl rfl rfl).1
      (Or.inl rfl)).1,
   ((session_steps_gate_only ⟨false, false⟩ 0 devNoSession rfl rfl rfl).1
      (Or.inl rfl)).2.2 rfl⟩
